import Mathlib

/-!
Shallow embedding of the TCP option kind registry from `src/lib.rs` of the
`tcpoptions` crate, together with theorems settling the specification claims
about its per-kind decoders.

Bytes are modelled as `Fin 256` (Rust `u8`); a Rust byte slice `&[u8]` is a
`List Byte`.  Each registered closure `Box<dyn Fn(&[u8]) -> Option<TcpOption>>`
becomes a Lean function `List Byte → ParseResult`, where `ParseResult`
distinguishes the three possible Rust outcomes: returning `Some(option)`,
returning `None` (a validation failure), and panicking (Rust slice indexing
out of bounds, or `copy_from_slice` invoked with mismatched lengths).
-/

/-- A Rust `u8`. -/
abbrev Byte := Fin 256

/-- Big-endian interpretation of a byte string, as produced by Rust's
`uN::from_be_bytes` on an `N/8`-byte array (the numeric value never
overflows when the array has the width of the target type). -/
def beBytesToNat (l : List Byte) : Nat :=
  l.foldl (fun acc b => acc * 256 + b.val) 0

/-- The byte string `l[a..b]`, for in-range `a ≤ b ≤ l.length`. -/
def byteSlice (a b : Nat) (l : List Byte) : List Byte :=
  (l.drop a).take (b - a)

/-- Rust slice indexing `&data[a..b]`: panics (`none`) unless
`a ≤ b ∧ b ≤ data.len()`, otherwise yields the sub-slice. -/
def sliceChecked (a b : Nat) (l : List Byte) : Option (List Byte) :=
  if a ≤ b ∧ b ≤ l.length then some (byteSlice a b l) else none

/-- Rust `dst.copy_from_slice(src)` for a destination of length `n`:
panics (`none`) unless `src.len() == n`; on success the destination holds
exactly the bytes of `src`. -/
def copyFromSlice (n : Nat) (src : List Byte) : Option (List Byte) :=
  if src.length = n then some src else none

/-- Rust `data[i]`: panics (`none`) when out of bounds. -/
def indexChecked (i : Nat) (l : List Byte) : Option Byte :=
  l[i]?

/-- `struct Sack { left_edge: u32, right_edge: u32 }` (src/lib.rs lines 6-10);
the `u32` fields are modelled as `Nat` values below `2^32`. -/
structure Sack where
  left_edge : Nat
  right_edge : Nat
deriving DecidableEq

/-- `struct Timestamp { value: u32, echo_reply: u32 }` (src/lib.rs lines 12-16). -/
structure Timestamp where
  value : Nat
  echo_reply : Nat
deriving DecidableEq

/-- `enum TcpOption` (src/lib.rs lines 18-47): the typed decoded option.
Numeric payloads (`u8`, `u16`, `u64`, `u128`) are `Nat`; opaque payloads
(`Vec<u8>`) are `List Byte`. -/
inductive TcpOption where
  | EndOfOptionList
  | NoOperation
  | MaximumSegmentSize (v : Nat)
  | WindowScale (v : Nat)
  | SackPermitted
  | Sack (blocks : List Sack)
  | Timestamp (t : Timestamp)
  | Skeeter
  | Bubba
  | TrailerChecksum (v : Nat)
  | SCPSCapabilities
  | SelectiveNegativeAcknowledgements
  | RecordBoundaries
  | CorruptionExperienced
  | SNAP
  | TCPCompressionFilter
  | QuickStartResponse (v : Nat)
  | UserTimeout (v : Nat)
  | TCPAuthenticationOption
  | MultipathTCP (d : List Byte)
  | TCPFastOpenCookie (v : Nat)
  | EncryptionNegotiation (d : List Byte)
  | AccECNOrder0 (d : List Byte)
  | AccECNOrder1 (d : List Byte)
  | RFC3692Experiment1 (d : List Byte)
  | RFC3692Experiment2 (d : List Byte)
deriving DecidableEq

/-- Outcome of invoking one registered closure on a byte slice:
`ok o` is Rust `Some(o)`, `reject` is Rust `None` (validation failure),
`panicked` is a Rust panic. -/
inductive ParseResult where
  | panicked
  | reject
  | ok (o : TcpOption)
deriving DecidableEq

/-- Kind 1 closure (src/lib.rs line 59): `|_| Some(TcpOption::NoOperation)`. -/
def noOperationDecoder (_ : List Byte) : ParseResult :=
  .ok .NoOperation

/-- Kind 2 closure (src/lib.rs lines 62-75): length must be exactly 4, then
`u16::from_be_bytes` of `data[2..data.len()]`. -/
def maximumSegmentSizeDecoder (data : List Byte) : ParseResult :=
  if data.length ≠ 4 then .reject
  else
    match sliceChecked 2 data.length data with
    | none => .panicked
    | some s =>
      match copyFromSlice 2 s with
      | none => .panicked
      | some mss_bytes => .ok (.MaximumSegmentSize (beBytesToNat mss_bytes))

/-- Kind 3 closure (src/lib.rs lines 78-87): length must be exactly 3, then
the byte `data[2]`. -/
def windowScaleDecoder (data : List Byte) : ParseResult :=
  if data.length ≠ 3 then .reject
  else
    match indexChecked 2 data with
    | none => .panicked
    | some ws => .ok (.WindowScale ws.val)

/-- Kind 4 closure (src/lib.rs line 90): `|_| Some(TcpOption::SackPermitted)`. -/
def sackPermittedDecoder (_ : List Byte) : ParseResult :=
  .ok .SackPermitted

/-- The loop of the kind 5 closure (src/lib.rs lines 100-115):
`for i in (2..data.len()).step_by(8)`, breaking when `i + 8 > data.len()`,
reading two big-endian `u32` values per iteration.  `none` is a panic
(unreachable in-bounds, but modelled faithfully). -/
def sackLoop (data : List Byte) (i : Nat) : Option (List Sack) :=
  if i < data.length then
    if i + 8 > data.length then some []
    else
      match sliceChecked i (i + 4) data, sliceChecked (i + 4) (i + 8) data with
      | some ls, some rs =>
        match copyFromSlice 4 ls, copyFromSlice 4 rs with
        | some left_edge_bytes, some right_edge_bytes =>
          (sackLoop data (i + 8)).map
            (fun rest =>
              { left_edge := beBytesToNat left_edge_bytes,
                right_edge := beBytesToNat right_edge_bytes } :: rest)
        | _, _ => none
      | _, _ => none
  else some []
termination_by data.length - i
decreasing_by omega

/-- Kind 5 closure (src/lib.rs lines 93-118): rejects unless
`data.len() ≥ 2 && data.len() % 8 == 2`, then collects the 8-byte blocks. -/
def sackDecoder (data : List Byte) : ParseResult :=
  if data.length < 2 ∨ data.length % 8 ≠ 2 then .reject
  else
    match sackLoop data 2 with
    | none => .panicked
    | some sacks => .ok (.Sack sacks)

/-- Kind 8 closure (src/lib.rs lines 121-139): length must be exactly 10,
then two big-endian `u32` fields at `data[2..6]` and `data[6..10]`. -/
def timestampDecoder (data : List Byte) : ParseResult :=
  if data.length ≠ 10 then .reject
  else
    match sliceChecked 2 6 data, sliceChecked 6 10 data with
    | some s1, some s2 =>
      match copyFromSlice 4 s1, copyFromSlice 4 s2 with
      | some tsval_bytes, some tsecr_bytes =>
        .ok (.Timestamp
          { value := beBytesToNat tsval_bytes,
            echo_reply := beBytesToNat tsecr_bytes })
      | _, _ => .panicked
    | _, _ => .panicked

/-- Kind 16 closure (src/lib.rs line 142): `|_| Some(TcpOption::Skeeter)`. -/
def skeeterDecoder (_ : List Byte) : ParseResult :=
  .ok .Skeeter

/-- Kind 17 closure (src/lib.rs line 145): `|_| Some(TcpOption::Bubba)`. -/
def bubbaDecoder (_ : List Byte) : ParseResult :=
  .ok .Bubba

/-- Kind 18 closure (src/lib.rs lines 148-157): length must be exactly 3,
then the byte `data[2]`. -/
def trailerChecksumDecoder (data : List Byte) : ParseResult :=
  if data.length ≠ 3 then .reject
  else
    match indexChecked 2 data with
    | none => .panicked
    | some checksum => .ok (.TrailerChecksum checksum.val)

/-- Kind 20 closure (src/lib.rs line 160). -/
def scpsCapabilitiesDecoder (_ : List Byte) : ParseResult :=
  .ok .SCPSCapabilities

/-- Kind 21 closure (src/lib.rs line 163). -/
def snackDecoder (_ : List Byte) : ParseResult :=
  .ok .SelectiveNegativeAcknowledgements

/-- Kind 22 closure (src/lib.rs line 166). -/
def recordBoundariesDecoder (_ : List Byte) : ParseResult :=
  .ok .RecordBoundaries

/-- Kind 23 closure (src/lib.rs line 169). -/
def corruptionExperiencedDecoder (_ : List Byte) : ParseResult :=
  .ok .CorruptionExperienced

/-- Kind 24 closure (src/lib.rs line 172). -/
def snapDecoder (_ : List Byte) : ParseResult :=
  .ok .SNAP

/-- Kind 26 closure (src/lib.rs line 175). -/
def tcpCompressionFilterDecoder (_ : List Byte) : ParseResult :=
  .ok .TCPCompressionFilter

/-- Kind 27 closure (src/lib.rs lines 178-191): length must be exactly 8,
then `cookie_bytes.copy_from_slice(&data[2..8])` where `cookie_bytes` is an
**8-byte** array while `data[2..8]` has 6 bytes — `copy_from_slice` demands
equal lengths, so this panics whenever the length guard passes. -/
def quickStartResponseDecoder (data : List Byte) : ParseResult :=
  if data.length ≠ 8 then .reject
  else
    match sliceChecked 2 8 data with
    | none => .panicked
    | some s =>
      match copyFromSlice 8 s with
      | none => .panicked
      | some cookie_bytes => .ok (.QuickStartResponse (beBytesToNat cookie_bytes))

/-- Kind 28 closure (src/lib.rs lines 194-207): length must be exactly 4,
then big-endian `u16` at `data[2..4]`. -/
def userTimeoutDecoder (data : List Byte) : ParseResult :=
  if data.length ≠ 4 then .reject
  else
    match sliceChecked 2 4 data with
    | none => .panicked
    | some s =>
      match copyFromSlice 2 s with
      | none => .panicked
      | some timeout_bytes => .ok (.UserTimeout (beBytesToNat timeout_bytes))

/-- Kind 29 closure (src/lib.rs line 210). -/
def tcpAuthenticationOptionDecoder (_ : List Byte) : ParseResult :=
  .ok .TCPAuthenticationOption

/-- Kind 30 closure (src/lib.rs lines 213-223): length must be at least 4,
then the bytes `data[2..data.len()]` verbatim. -/
def multipathTCPDecoder (data : List Byte) : ParseResult :=
  if data.length < 4 then .reject
  else
    match sliceChecked 2 data.length data with
    | none => .panicked
    | some data_bytes => .ok (.MultipathTCP data_bytes)

/-- Kind 34 closure (src/lib.rs lines 226-239): length must be exactly 18,
then big-endian `u128` at `data[2..18]`. -/
def tcpFastOpenCookieDecoder (data : List Byte) : ParseResult :=
  if data.length ≠ 18 then .reject
  else
    match sliceChecked 2 18 data with
    | none => .panicked
    | some s =>
      match copyFromSlice 16 s with
      | none => .panicked
      | some cookie_bytes => .ok (.TCPFastOpenCookie (beBytesToNat cookie_bytes))

/-- Kind 69 closure (src/lib.rs lines 242-252): length must be at least 4,
then the bytes `data[2..data.len()]` verbatim. -/
def encryptionNegotiationDecoder (data : List Byte) : ParseResult :=
  if data.length < 4 then .reject
  else
    match sliceChecked 2 data.length data with
    | none => .panicked
    | some data_bytes => .ok (.EncryptionNegotiation data_bytes)

/-- Kind 172 closure (src/lib.rs lines 255-265): length must be at least 4,
then the bytes `data[2..data.len()]` verbatim. -/
def accECNOrder0Decoder (data : List Byte) : ParseResult :=
  if data.length < 4 then .reject
  else
    match sliceChecked 2 data.length data with
    | none => .panicked
    | some data_bytes => .ok (.AccECNOrder0 data_bytes)

/-- Kind 174 closure (src/lib.rs lines 268-278): length must be at least 4,
then the bytes `data[2..data.len()]` verbatim. -/
def accECNOrder1Decoder (data : List Byte) : ParseResult :=
  if data.length < 4 then .reject
  else
    match sliceChecked 2 data.length data with
    | none => .panicked
    | some data_bytes => .ok (.AccECNOrder1 data_bytes)

/-- The registry `OPTION_PARSERS` (src/lib.rs lines 55-284): the immutable
map from a kind byte to its decoder; `none` for unregistered kinds.  Exactly
the 23 `parsers.insert(k, ...)` calls of the source appear. -/
def OPTION_PARSERS (kind : Byte) : Option (List Byte → ParseResult) :=
  match kind.val with
  | 1 => some noOperationDecoder
  | 2 => some maximumSegmentSizeDecoder
  | 3 => some windowScaleDecoder
  | 4 => some sackPermittedDecoder
  | 5 => some sackDecoder
  | 8 => some timestampDecoder
  | 16 => some skeeterDecoder
  | 17 => some bubbaDecoder
  | 18 => some trailerChecksumDecoder
  | 20 => some scpsCapabilitiesDecoder
  | 21 => some snackDecoder
  | 22 => some recordBoundariesDecoder
  | 23 => some corruptionExperiencedDecoder
  | 24 => some snapDecoder
  | 26 => some tcpCompressionFilterDecoder
  | 27 => some quickStartResponseDecoder
  | 28 => some userTimeoutDecoder
  | 29 => some tcpAuthenticationOptionDecoder
  | 30 => some multipathTCPDecoder
  | 34 => some tcpFastOpenCookieDecoder
  | 69 => some encryptionNegotiationDecoder
  | 172 => some accECNOrder0Decoder
  | 174 => some accECNOrder1Decoder
  | _ => none

/-- One Sack block as the spec describes it: the `i`-th 8-byte group is read
as two big-endian `u32` values (left edge then right edge). -/
def sackBlockAt (data : List Byte) (i : Nat) : Sack :=
  { left_edge := beBytesToNat (byteSlice i (i + 4) data),
    right_edge := beBytesToNat (byteSlice (i + 4) (i + 8) data) }

/-- The block sequence the spec prescribes for a valid Sack entry:
`(len-2)/8` blocks, the `j`-th taken from the `j`-th 8-byte group starting
at offset 2. -/
def sackSpecBlocks (data : List Byte) : List Sack :=
  (List.range ((data.length - 2) / 8)).map (fun j => sackBlockAt data (2 + 8 * j))

/-- C10: the registry has no decoder for kind 0 (EndOfOptionList), while
kind 1 (NoOperation) is registered with a decoder that returns NoOperation
for every input byte slice regardless of its length. -/
theorem c10_kind0_absent_kind1_noop :
    OPTION_PARSERS 0 = none ∧
    OPTION_PARSERS 1 = some noOperationDecoder ∧
    ∀ data : List Byte, noOperationDecoder data = .ok .NoOperation :=
  ⟨rfl, rfl, fun _ => rfl⟩

/-- C8: every registered decoder is deterministic: whenever the registry
returns a decoder for a kind, invoking it on equal byte slices yields
identical results (the embedding is a pure function; no hidden state). -/
theorem c8_registered_decoders_deterministic (kind : Byte)
    (f : List Byte → ParseResult) (d1 d2 : List Byte)
    (_hf : OPTION_PARSERS kind = some f) (hd : d1 = d2) :
    f d1 = f d2 := by
  rw [hd]

/-- Witness for C8 at kind 1 and the empty slice. -/
theorem c8_witness :
    OPTION_PARSERS 1 = some noOperationDecoder ∧
    noOperationDecoder [] = noOperationDecoder [] :=
  ⟨rfl, c8_registered_decoders_deterministic 1 noOperationDecoder [] [] rfl rfl⟩

/-- C1 (failing input): the registry maps kind 27 to the QuickStartResponse
decoder, and that decoder panics (rather than terminating normally with a
decoded option or a validation failure) on the 8-byte entry
`[27, 8, 0, 0, 0, 0, 0, 0]`: `copy_from_slice` copies the 6-byte slice
`data[2..8]` into an 8-byte array, whose lengths differ. -/
theorem c1_quickstart_panics_on_8_byte_entry :
    OPTION_PARSERS 27 = some quickStartResponseDecoder ∧
    quickStartResponseDecoder [27, 8, 0, 0, 0, 0, 0, 0] = .panicked :=
  ⟨rfl, rfl⟩

/-- C2 (code behaviour at the failing inputs): the kind 27 decoder rejects
any entry whose length is not exactly 8, but on every exactly-8-byte entry
it panics instead of returning `QuickStartResponse` of the zero-extended
48-bit big-endian payload value. -/
theorem c2_quickstart_panics_never_decodes :
    OPTION_PARSERS 27 = some quickStartResponseDecoder ∧
    ∀ data : List Byte,
      quickStartResponseDecoder data =
        if data.length = 8 then .panicked else .reject := by
  refine ⟨rfl, fun data => ?_⟩
  unfold quickStartResponseDecoder
  by_cases h : data.length = 8
  · simp only [h, ne_eq, not_true_eq_false, if_false, if_pos,
      sliceChecked, copyFromSlice, byteSlice]
    simp [List.length_take, List.length_drop, h]
  · simp [h]

/-- C3 (counterexample): the registry lookup for the experimental kind 253
returns no decoder, contradicting the claim that it returns one. -/
theorem c3_counterexample_253_unregistered :
    OPTION_PARSERS 253 = none :=
  rfl

/-- C3 (amended): the experimental kinds 253 and 254 are not registered:
the registry lookup returns no decoder for either, so these kinds fall
through to the Unknown fallback of the decode pipeline. -/
theorem c3_amended_experimental_kinds_unregistered :
    OPTION_PARSERS 253 = none ∧ OPTION_PARSERS 254 = none :=
  ⟨rfl, rfl⟩

/-- C4 (counterexample): the SackPermitted decoder (kind 4) accepts the
3-byte entry `[4, 3, 0]` and returns the SackPermitted variant, not a
validation failure, contradicting the claim that every entry whose length
is not exactly 2 is rejected. -/
theorem c4_counterexample_sackpermitted_accepts_len3 :
    OPTION_PARSERS 4 = some sackPermittedDecoder ∧
    sackPermittedDecoder [4, 3, 0] = .ok .SackPermitted ∧
    ParseResult.ok .SackPermitted ≠ .reject :=
  ⟨rfl, rfl, by decide⟩

/-- C4 (amended): every zero-payload capability-marker decoder registered in
the registry (SackPermitted 4, Skeeter 16, Bubba 17, SCPSCapabilities 20,
SelectiveNegativeAcknowledgements 21, RecordBoundaries 22,
CorruptionExperienced 23, SNAP 24, TCPCompressionFilter 26,
TCPAuthenticationOption 29) performs no length validation at all: it
returns its zero-payload variant for every input byte slice, never a
validation failure and never a partial or garbage value. -/
theorem c4_amended_markers_ignore_length :
    OPTION_PARSERS 4 = some sackPermittedDecoder ∧
    OPTION_PARSERS 16 = some skeeterDecoder ∧
    OPTION_PARSERS 17 = some bubbaDecoder ∧
    OPTION_PARSERS 20 = some scpsCapabilitiesDecoder ∧
    OPTION_PARSERS 21 = some snackDecoder ∧
    OPTION_PARSERS 22 = some recordBoundariesDecoder ∧
    OPTION_PARSERS 23 = some corruptionExperiencedDecoder ∧
    OPTION_PARSERS 24 = some snapDecoder ∧
    OPTION_PARSERS 26 = some tcpCompressionFilterDecoder ∧
    OPTION_PARSERS 29 = some tcpAuthenticationOptionDecoder ∧
    ∀ data : List Byte,
      sackPermittedDecoder data = .ok .SackPermitted ∧
      skeeterDecoder data = .ok .Skeeter ∧
      bubbaDecoder data = .ok .Bubba ∧
      scpsCapabilitiesDecoder data = .ok .SCPSCapabilities ∧
      snackDecoder data = .ok .SelectiveNegativeAcknowledgements ∧
      recordBoundariesDecoder data = .ok .RecordBoundaries ∧
      corruptionExperiencedDecoder data = .ok .CorruptionExperienced ∧
      snapDecoder data = .ok .SNAP ∧
      tcpCompressionFilterDecoder data = .ok .TCPCompressionFilter ∧
      tcpAuthenticationOptionDecoder data = .ok .TCPAuthenticationOption :=
  ⟨rfl, rfl, rfl, rfl, rfl, rfl, rfl, rfl, rfl, rfl,
   fun _ => ⟨rfl, rfl, rfl, rfl, rfl, rfl, rfl, rfl, rfl, rfl⟩⟩

/-- C6: the MaximumSegmentSize decoder (kind 2) rejects any entry whose
length is not exactly 4, and decodes `[0x02, 0x04, 0x05, 0xB4]` to
`MaximumSegmentSize(1460)`, the big-endian u16 at offset 2. -/
theorem c6_mss (data : List Byte) (h : data.length ≠ 4) :
    OPTION_PARSERS 2 = some maximumSegmentSizeDecoder ∧
    maximumSegmentSizeDecoder data = .reject ∧
    maximumSegmentSizeDecoder [2, 4, 5, 180] = .ok (.MaximumSegmentSize 1460) := by
  refine ⟨rfl, ?_, rfl⟩
  unfold maximumSegmentSizeDecoder
  simp [h]

/-- Witness for C6 at the empty slice. -/
theorem c6_mss_witness :
    ([] : List Byte).length ≠ 4 ∧
    maximumSegmentSizeDecoder [] = .reject ∧
    maximumSegmentSizeDecoder [2, 4, 5, 180] = .ok (.MaximumSegmentSize 1460) :=
  ⟨by decide, (c6_mss [] (by decide)).2.1, (c6_mss [] (by decide)).2.2⟩

/-- The Sack loop, run from position `i` with exactly `8 * n` bytes left,
produces `n` blocks, the `j`-th read from the 8-byte group at `i + 8 * j`. -/
theorem sackLoop_spec (data : List Byte) :
    ∀ n i, i ≤ data.length → data.length - i = 8 * n →
    sackLoop data i =
      some ((List.range n).map (fun j => sackBlockAt data (i + 8 * j))) := by
  intro n
  induction n with
  | zero =>
    intro i hi h0
    rw [sackLoop]
    rw [if_neg (by omega)]
    simp
  | succ n ih =>
    intro i hi hlen
    have hlt : i < data.length := by omega
    have h8 : i + 8 ≤ data.length := by omega
    rw [sackLoop]
    rw [if_pos hlt, if_neg (by omega)]
    have hs1 : sliceChecked i (i + 4) data = some (byteSlice i (i + 4) data) := by
      unfold sliceChecked
      rw [if_pos ⟨by omega, by omega⟩]
    have hs2 : sliceChecked (i + 4) (i + 8) data
        = some (byteSlice (i + 4) (i + 8) data) := by
      unfold sliceChecked
      rw [if_pos ⟨by omega, by omega⟩]
    have hl1 : (byteSlice i (i + 4) data).length = 4 := by
      simp only [byteSlice, List.length_take, List.length_drop]
      omega
    have hl2 : (byteSlice (i + 4) (i + 8) data).length = 4 := by
      simp only [byteSlice, List.length_take, List.length_drop]
      omega
    have hc1 : copyFromSlice 4 (byteSlice i (i + 4) data)
        = some (byteSlice i (i + 4) data) := by
      unfold copyFromSlice
      rw [if_pos hl1]
    have hc2 : copyFromSlice 4 (byteSlice (i + 4) (i + 8) data)
        = some (byteSlice (i + 4) (i + 8) data) := by
      unfold copyFromSlice
      rw [if_pos hl2]
    rw [hs1, hs2]
    simp only [hc1, hc2]
    rw [ih (i + 8) (by omega) (by omega)]
    simp only [Option.map_some']
    congr 1
    rw [List.range_succ_eq_map, List.map_cons, List.map_map]
    congr 1
    apply List.map_congr_left
    intro j hj
    simp only [Function.comp_apply, Nat.succ_eq_add_one]
    have harg : i + 8 + 8 * j = i + 8 * (j + 1) := by omega
    rw [harg]

/-- C5: the Sack decoder (kind 5) returns a decoded value exactly when the
entry length satisfies `len ≥ 2 ∧ (len - 2) % 8 = 0`, and then returns
`Sack` with `(len-2)/8` blocks, the `j`-th block read as two big-endian u32
values from the `j`-th 8-byte group starting at offset 2 (so a length-10
entry yields one block, and lengths 9 or 11 are rejected). -/
theorem c5_sack_decoder_characterization (data : List Byte) :
    OPTION_PARSERS 5 = some sackDecoder ∧
    sackDecoder data =
      if 2 ≤ data.length ∧ (data.length - 2) % 8 = 0
      then .ok (.Sack (sackSpecBlocks data))
      else .reject := by
  refine ⟨rfl, ?_⟩
  unfold sackDecoder
  by_cases h : 2 ≤ data.length ∧ (data.length - 2) % 8 = 0
  · rw [if_pos h, if_neg (by omega)]
    rw [sackLoop_spec data ((data.length - 2) / 8) 2 (by omega) (by omega)]
    rfl
  · rw [if_neg h, if_pos (by omega)]

/-- C9: the Sack decoder accepts any entry of length exactly 2 (kind and
length byte, no payload) and returns `Sack` with an empty block sequence
rather than a validation failure. -/
theorem c9_sack_accepts_length2 (data : List Byte) (h : data.length = 2) :
    sackDecoder data = .ok (.Sack []) := by
  unfold sackDecoder
  rw [if_neg (by omega)]
  rw [sackLoop_spec data 0 2 (by omega) (by omega)]
  simp

/-- Witness for C9 at the entry `[5, 2]`. -/
theorem c9_witness :
    ([5, 2] : List Byte).length = 2 ∧ sackDecoder [5, 2] = .ok (.Sack []) :=
  ⟨rfl, c9_sack_accepts_length2 [5, 2] rfl⟩

/-- C7: each variable opaque-payload decoder (MultipathTCP 30,
EncryptionNegotiation 69, AccECNOrder0 172, AccECNOrder1 174) rejects
exactly the entries shorter than 4 bytes and otherwise returns its variant
carrying the bytes from offset 2 to the end of the entry, verbatim. -/
theorem c7_opaque_payload_decoders (data : List Byte) :
    OPTION_PARSERS 30 = some multipathTCPDecoder ∧
    OPTION_PARSERS 69 = some encryptionNegotiationDecoder ∧
    OPTION_PARSERS 172 = some accECNOrder0Decoder ∧
    OPTION_PARSERS 174 = some accECNOrder1Decoder ∧
    multipathTCPDecoder data =
      (if data.length < 4 then .reject
       else .ok (.MultipathTCP (byteSlice 2 data.length data))) ∧
    encryptionNegotiationDecoder data =
      (if data.length < 4 then .reject
       else .ok (.EncryptionNegotiation (byteSlice 2 data.length data))) ∧
    accECNOrder0Decoder data =
      (if data.length < 4 then .reject
       else .ok (.AccECNOrder0 (byteSlice 2 data.length data))) ∧
    accECNOrder1Decoder data =
      (if data.length < 4 then .reject
       else .ok (.AccECNOrder1 (byteSlice 2 data.length data))) := by
  have hs : ¬ data.length < 4 →
      sliceChecked 2 data.length data = some (byteSlice 2 data.length data) := by
    intro h
    unfold sliceChecked
    rw [if_pos ⟨by omega, by omega⟩]
  refine ⟨rfl, rfl, rfl, rfl, ?_, ?_, ?_, ?_⟩
  · unfold multipathTCPDecoder
    by_cases h : data.length < 4
    · rw [if_pos h, if_pos h]
    · rw [if_neg h, if_neg h, hs h]
  · unfold encryptionNegotiationDecoder
    by_cases h : data.length < 4
    · rw [if_pos h, if_pos h]
    · rw [if_neg h, if_neg h, hs h]
  · unfold accECNOrder0Decoder
    by_cases h : data.length < 4
    · rw [if_pos h, if_pos h]
    · rw [if_neg h, if_neg h, hs h]
  · unfold accECNOrder1Decoder
    by_cases h : data.length < 4
    · rw [if_pos h, if_pos h]
    · rw [if_neg h, if_neg h, hs h]
